import Mathlib

/-!
Shallow embedding of the `PackagingEngine` pricing service from
`src/types/package.ts` of the OlympicHubSajt repository.

Currency amounts are modelled as exact rationals (ℚ); JavaScript numeric
literals such as `0.10` and `0.20` become `10/100` and `20/100`.  The
Prisma database is modelled as an explicit list of `MarginRule` rows
(the "store"); the query's `where` clause becomes a filter and its
`orderBy: priority desc` becomes an explicit sort.
-/

/-- Component tags of `PriceComponent.componentType` in `src/types/package.ts`. -/
inductive ComponentType
  | FLIGHT
  | HOTEL
  | TRANSFER
  | TAX
  | MARGIN
deriving DecidableEq, Repr

/-- `PriceComponent` interface (src/types/package.ts lines 122-130). -/
structure PriceComponent where
  id : String
  componentType : ComponentType
  netPrice : ℚ
  marginAmount : ℚ
  taxAmount : ℚ
  totalPrice : ℚ
  currency : String
deriving DecidableEq, Repr

/-- `PriceBreakdown` interface (src/types/package.ts lines 132-139). -/
structure PriceBreakdown where
  components : List PriceComponent
  subtotal : ℚ
  totalMargin : ℚ
  totalTax : ℚ
  grandTotal : ℚ
  currency : String
deriving DecidableEq, Repr

/-- `MarginRule` interface (src/types/package.ts lines 141-152). -/
structure MarginRule where
  id : String
  ruleName : String
  description : Option String
  bookingDaysAdvance : Option Int
  seasonType : Option String
  packageCategory : Option String
  marginPercent : ℚ
  marginFixed : ℚ
  isActive : Bool
  priority : Int
deriving DecidableEq, Repr

/-- `PackageCalculation` interface (src/types/package.ts lines 192-201). -/
structure PackageCalculation where
  basePrice : ℚ
  margin : ℚ
  tax : ℚ
  totalPrice : ℚ
  currency : String
  breakdown : PriceBreakdown
  appliedRules : List MarginRule
  opaqueMask : Bool
deriving DecidableEq, Repr

/-- Result pair of `applyMarginRules` (`{ totalMargin, appliedRules }`). -/
structure MarginResult where
  totalMargin : ℚ
  appliedRules : List MarginRule
deriving DecidableEq, Repr

/-- The Prisma `where` clause of `getApplicableMarginRules`
(src/types/package.ts lines 324-345): `isActive` and an `OR` of four
branches.  When `category` (resp. `seasonType`) is absent the code places
the empty object `{}` in the `OR`, which matches every row. -/
def ruleMatchesWhere (daysAdvance : Int) (category seasonType : Option String)
    (r : MarginRule) : Bool :=
  r.isActive &&
    ((match r.bookingDaysAdvance with
      | some v => decide (daysAdvance ≤ v)
      | none => false) ||
     (match category with
      | some c => r.packageCategory == some c
      | none => true) ||
     (match seasonType with
      | some s => r.seasonType == some s
      | none => true) ||
     (r.bookingDaysAdvance == none && r.packageCategory == none &&
      r.seasonType == none))

/-- Insert a rule into a list kept in descending `priority` order
(models one step of the Prisma `orderBy: priority desc`). -/
def insertByPriorityDesc (r : MarginRule) : List MarginRule → List MarginRule
  | [] => [r]
  | x :: xs =>
    if x.priority < r.priority then r :: x :: xs
    else x :: insertByPriorityDesc r xs

/-- Sort rules by descending `priority`
(the Prisma `orderBy: { priority: 'desc' }` of the rule query). -/
def sortByPriorityDesc : List MarginRule → List MarginRule
  | [] => []
  | r :: rs => insertByPriorityDesc r (sortByPriorityDesc rs)

/-- `PackagingEngine.getApplicableMarginRules`
(src/types/package.ts lines 317-352): filter the rule store by the
`where` clause and return the rows in descending priority order. -/
def getApplicableMarginRules (store : List MarginRule) (daysAdvance : Int)
    (category seasonType : Option String) : List MarginRule :=
  sortByPriorityDesc (store.filter (ruleMatchesWhere daysAdvance category seasonType))

/-- `PackagingEngine.applyMarginRules` (src/types/package.ts lines 357-388):
empty list falls back to a 10% default margin with no applied rule;
otherwise only `rules[0]` is applied, its percentage term counted when
`marginPercent > 0` and its fixed term when `marginFixed > 0`. -/
def applyMarginRules (basePrice : ℚ) (rules : List MarginRule) : MarginResult :=
  match rules with
  | [] => { totalMargin := basePrice * (10 / 100), appliedRules := [] }
  | topRule :: _ =>
    let marginAmount : ℚ :=
      (if topRule.marginPercent > 0 then basePrice * (topRule.marginPercent / 100) else 0) +
      (if topRule.marginFixed > 0 then topRule.marginFixed else 0)
    { totalMargin := marginAmount, appliedRules := [topRule] }

/-- `PackagingEngine.buildPriceBreakdown` (src/types/package.ts lines
393-477): FLIGHT/HOTEL/TRANSFER lines only when the net price is
positive, then one MARGIN and one TAX line, then the aggregates. -/
def buildPriceBreakdown (flightPrice hotelPrice transferPrice totalMargin taxAmount : ℚ)
    (currency : String) : PriceBreakdown :=
  let components : List PriceComponent :=
    (if flightPrice > 0 then
      [{ id := "flight", componentType := ComponentType.FLIGHT, netPrice := flightPrice,
         marginAmount := 0, taxAmount := 0, totalPrice := flightPrice, currency := currency }]
     else []) ++
    (if hotelPrice > 0 then
      [{ id := "hotel", componentType := ComponentType.HOTEL, netPrice := hotelPrice,
         marginAmount := 0, taxAmount := 0, totalPrice := hotelPrice, currency := currency }]
     else []) ++
    (if transferPrice > 0 then
      [{ id := "transfer", componentType := ComponentType.TRANSFER, netPrice := transferPrice,
         marginAmount := 0, taxAmount := 0, totalPrice := transferPrice, currency := currency }]
     else []) ++
    [{ id := "margin", componentType := ComponentType.MARGIN, netPrice := 0,
       marginAmount := totalMargin, taxAmount := 0, totalPrice := totalMargin,
       currency := currency },
     { id := "tax", componentType := ComponentType.TAX, netPrice := 0,
       marginAmount := 0, taxAmount := taxAmount, totalPrice := taxAmount,
       currency := currency }]
  let subtotal := flightPrice + hotelPrice + transferPrice
  let grandTotal := subtotal + totalMargin + taxAmount
  { components := components, subtotal := subtotal, totalMargin := totalMargin,
    totalTax := taxAmount, grandTotal := grandTotal, currency := currency }

/-- The fixed 20% VAT rate of `calculatePackagePrice`
(src/types/package.ts line 285: `const taxRate = 0.20`). -/
def taxRate : ℚ := 20 / 100

/-- `PackagingEngine.calculatePackagePrice` (src/types/package.ts lines
253-312).  `daysAdvance` stands for the `Math.floor((checkInDate -
today) / day)` computation; the Prisma rule table is the `store`
parameter.  The source performs no validation of the net prices. -/
def calculatePackagePrice (flightPrice hotelPrice transferPrice : ℚ)
    (store : List MarginRule) (daysAdvance : Int)
    (category seasonType : Option String)
    (applyOpaqueMask : Bool) (currency : String) : PackageCalculation :=
  let marginRules := getApplicableMarginRules store daysAdvance category seasonType
  let basePrice := flightPrice + hotelPrice + transferPrice
  let mr := applyMarginRules basePrice marginRules
  let priceBeforeTax := basePrice + mr.totalMargin
  let taxAmount := priceBeforeTax * taxRate
  let totalPrice := priceBeforeTax + taxAmount
  let breakdown := buildPriceBreakdown flightPrice hotelPrice transferPrice
    mr.totalMargin taxAmount currency
  { basePrice := basePrice, margin := mr.totalMargin, tax := taxAmount,
    totalPrice := totalPrice, currency := currency, breakdown := breakdown,
    appliedRules := mr.appliedRules, opaqueMask := applyOpaqueMask }

/-- Is a component a FLIGHT, HOTEL or TRANSFER row
(the `['FLIGHT','HOTEL','TRANSFER'].includes(...)` test of
`getItineraryPriceBreakdown`). -/
def isProductComponent (c : PriceComponent) : Bool :=
  c.componentType == ComponentType.FLIGHT ||
  c.componentType == ComponentType.HOTEL ||
  c.componentType == ComponentType.TRANSFER

/-- `PackagingEngine.getItineraryPriceBreakdown` (src/types/package.ts
lines 512-551), as a pure function of the stored component rows
(`savePriceComponents`, lines 482-507, stores `breakdown.components`
field for field, so the stored rows are the components themselves).
Returns `none` when no rows exist; otherwise re-derives the aggregates:
subtotal over FLIGHT/HOTEL/TRANSFER rows, the MARGIN row's
`marginAmount` (`|| 0`), the TAX row's `taxAmount` (`|| 0`). -/
def getItineraryPriceBreakdown (components : List PriceComponent) :
    Option PriceBreakdown :=
  match components with
  | [] => none
  | c0 :: _ =>
    let subtotal := ((components.filter isProductComponent).map
      (fun c => c.netPrice)).sum
    let totalMargin :=
      match components.find? (fun c => c.componentType == ComponentType.MARGIN) with
      | some c => c.marginAmount
      | none => 0
    let totalTax :=
      match components.find? (fun c => c.componentType == ComponentType.TAX) with
      | some c => c.taxAmount
      | none => 0
    some { components := components, subtotal := subtotal,
           totalMargin := totalMargin, totalTax := totalTax,
           grandTotal := subtotal + totalMargin + totalTax,
           currency := c0.currency }

/-- Number of components of a given type in a breakdown's list. -/
def countComponents (ty : ComponentType) (l : List PriceComponent) : Nat :=
  (l.filter (fun c => c.componentType == ty)).length

/-- Rule A of the spec's priority example: active, priority 1, 5% margin. -/
def ruleA : MarginRule :=
  { id := "A", ruleName := "Rule A", description := none,
    bookingDaysAdvance := none, seasonType := none, packageCategory := none,
    marginPercent := 5, marginFixed := 0, isActive := true, priority := 1 }

/-- Rule B of the spec's priority example: active, priority 10, 15% margin. -/
def ruleB : MarginRule :=
  { id := "B", ruleName := "Rule B", description := none,
    bookingDaysAdvance := none, seasonType := none, packageCategory := none,
    marginPercent := 15, marginFixed := 0, isActive := true, priority := 10 }

/-- The fixed-plus-percent example rule: priority 1, 10% and 20 fixed. -/
def ruleC : MarginRule :=
  { id := "C", ruleName := "Rule C", description := none,
    bookingDaysAdvance := none, seasonType := none, packageCategory := none,
    marginPercent := 10, marginFixed := 20, isActive := true, priority := 1 }

/-! ### Lemmas about the priority sort -/

lemma mem_insertByPriorityDesc {x r : MarginRule} {l : List MarginRule} :
    x ∈ insertByPriorityDesc r l ↔ x = r ∨ x ∈ l := by
  induction l with
  | nil => simp [insertByPriorityDesc]
  | cons a l ih =>
    simp only [insertByPriorityDesc]
    split
    · simp [List.mem_cons]
    · simp only [List.mem_cons, ih]
      tauto

lemma mem_sortByPriorityDesc {x : MarginRule} {l : List MarginRule} :
    x ∈ sortByPriorityDesc l ↔ x ∈ l := by
  induction l with
  | nil => simp [sortByPriorityDesc]
  | cons a l ih => simp [sortByPriorityDesc, mem_insertByPriorityDesc, ih]

lemma sortByPriorityDesc_head_max (l : List MarginRule) (hne : l ≠ []) :
    ∃ top rest, sortByPriorityDesc l = top :: rest ∧ top ∈ l ∧
      ∀ r ∈ l, r.priority ≤ top.priority := by
  induction l with
  | nil => exact absurd rfl hne
  | cons a l ih =>
    by_cases hl : l = []
    · subst hl
      exact ⟨a, [], rfl, List.mem_singleton.mpr rfl, by
        intro r hr
        simp only [List.mem_singleton] at hr
        exact hr ▸ le_refl _⟩
    · obtain ⟨b, rest, hsort, hbmem, hbmax⟩ := ih hl
      show ∃ top rest2, insertByPriorityDesc a (sortByPriorityDesc l) = top :: rest2 ∧ _
      rw [hsort]
      simp only [insertByPriorityDesc]
      by_cases hab : b.priority < a.priority
      · refine ⟨a, b :: rest, by rw [if_pos hab], List.mem_cons_self a l, ?_⟩
        intro r hr
        rcases List.mem_cons.mp hr with h | h
        · exact h ▸ le_refl _
        · exact le_trans (hbmax r h) (le_of_lt hab)
      · refine ⟨b, insertByPriorityDesc a rest, by rw [if_neg hab],
          List.mem_cons_of_mem a hbmem, ?_⟩
        intro r hr
        rcases List.mem_cons.mp hr with h | h
        · exact h ▸ le_of_not_lt hab
        · exact hbmax r h

/-! ### Claim theorems -/

/-- C1: for every input, the returned breakdown satisfies
`grandTotal = subtotal + totalMargin + totalTax`, the flat fields
satisfy `totalPrice = basePrice + margin + tax`, and
`basePrice = flightPrice + hotelPrice + transferPrice`. -/
theorem calculatePackagePrice_total_invariant
    (flightPrice hotelPrice transferPrice : ℚ) (store : List MarginRule)
    (daysAdvance : Int) (category seasonType : Option String)
    (applyOpaqueMask : Bool) (currency : String) :
    let res := calculatePackagePrice flightPrice hotelPrice transferPrice store
      daysAdvance category seasonType applyOpaqueMask currency
    res.breakdown.grandTotal =
        res.breakdown.subtotal + res.breakdown.totalMargin + res.breakdown.totalTax ∧
      res.totalPrice = res.basePrice + res.margin + res.tax ∧
      res.basePrice = flightPrice + hotelPrice + transferPrice := by
  refine ⟨rfl, rfl, rfl⟩

/-- C10: for every input, including negative net prices, the breakdown's
`subtotal` equals the calculation's `basePrice` and the breakdown's
`grandTotal` equals the calculation's `totalPrice`. -/
theorem calculatePackagePrice_breakdown_agrees
    (flightPrice hotelPrice transferPrice : ℚ) (store : List MarginRule)
    (daysAdvance : Int) (category seasonType : Option String)
    (applyOpaqueMask : Bool) (currency : String) :
    let res := calculatePackagePrice flightPrice hotelPrice transferPrice store
      daysAdvance category seasonType applyOpaqueMask currency
    res.breakdown.subtotal = res.basePrice ∧
      res.breakdown.grandTotal = res.totalPrice := by
  refine ⟨rfl, rfl⟩

/-- C4: with no applicable rules the calculator applies a default 10%
margin, attaches no rule record, and in particular basePrice 1000
yields totalMargin 100. -/
theorem applyMarginRules_default_margin
    (flightPrice hotelPrice transferPrice : ℚ) (daysAdvance : Int)
    (category seasonType : Option String)
    (applyOpaqueMask : Bool) (currency : String) (basePrice : ℚ) :
    (applyMarginRules basePrice []).totalMargin = basePrice * (10 / 100) ∧
      (applyMarginRules basePrice []).appliedRules = [] ∧
      (calculatePackagePrice flightPrice hotelPrice transferPrice []
        daysAdvance category seasonType applyOpaqueMask currency).margin =
        (flightPrice + hotelPrice + transferPrice) * (10 / 100) ∧
      (calculatePackagePrice flightPrice hotelPrice transferPrice []
        daysAdvance category seasonType applyOpaqueMask currency).appliedRules = [] ∧
      (calculatePackagePrice 1000 0 0 [] daysAdvance category seasonType
        applyOpaqueMask currency).margin = 100 := by
  refine ⟨rfl, rfl, rfl, rfl, ?_⟩
  show ((1000 : ℚ) + 0 + 0) * (10 / 100) = 100
  norm_num

/-- C6: the tax is always exactly the fixed 20% rate applied to
`basePrice + margin`, `totalPrice = basePrice + margin + tax`, and the
spec's end-to-end example (150, 700, 50, no rules) yields basePrice 900,
margin 90, tax 198 and totalPrice 1188. -/
theorem calculatePackagePrice_tax_twenty_percent
    (flightPrice hotelPrice transferPrice : ℚ) (store : List MarginRule)
    (daysAdvance : Int) (category seasonType : Option String)
    (applyOpaqueMask : Bool) (currency : String) :
    let res := calculatePackagePrice flightPrice hotelPrice transferPrice store
      daysAdvance category seasonType applyOpaqueMask currency
    taxRate = 20 / 100 ∧
      res.tax = (res.basePrice + res.margin) * taxRate ∧
      res.totalPrice = res.basePrice + res.margin + res.tax ∧
      (let ex := calculatePackagePrice 150 700 50 [] daysAdvance category
        seasonType applyOpaqueMask currency
       ex.basePrice = 900 ∧ ex.margin = 90 ∧ ex.tax = 198 ∧ ex.totalPrice = 1188) := by
  refine ⟨rfl, rfl, rfl, ?_, ?_, ?_, ?_⟩
  · show (150 : ℚ) + 700 + 50 = 900
    norm_num
  · show ((150 : ℚ) + 700 + 50) * (10 / 100) = 90
    norm_num
  · show (((150 : ℚ) + 700 + 50) + ((150 : ℚ) + 700 + 50) * (10 / 100)) * taxRate = 198
    norm_num [taxRate]
  · show (((150 : ℚ) + 700 + 50) + ((150 : ℚ) + 700 + 50) * (10 / 100)) +
      (((150 : ℚ) + 700 + 50) + ((150 : ℚ) + 700 + 50) * (10 / 100)) * taxRate = 1188
    norm_num [taxRate]

/-- C3 counterexample: with `flightPrice = -1` (no rules, daysAdvance 0,
default options) `calculatePackagePrice` does not reject the input: it
returns a full `PackageCalculation` whose arithmetic simply includes the
negative value (basePrice -1, margin -1/10, totalPrice -33/25 = -1.32). -/
theorem calculatePackagePrice_negative_not_rejected :
    (calculatePackagePrice (-1) 0 0 [] 0 none none true "EUR").basePrice = -1 ∧
      (calculatePackagePrice (-1) 0 0 [] 0 none none true "EUR").margin = -1 / 10 ∧
      (calculatePackagePrice (-1) 0 0 [] 0 none none true "EUR").totalPrice = -33 / 25 := by
  refine ⟨?_, ?_, ?_⟩
  · show (-1 : ℚ) + 0 + 0 = -1
    norm_num
  · show ((-1 : ℚ) + 0 + 0) * (10 / 100) = -1 / 10
    norm_num
  · show (((-1 : ℚ) + 0 + 0) + ((-1 : ℚ) + 0 + 0) * (10 / 100)) +
      (((-1 : ℚ) + 0 + 0) + ((-1 : ℚ) + 0 + 0) * (10 / 100)) * taxRate = -33 / 25
    norm_num [taxRate]

/-- C3 amended: `calculatePackagePrice` performs no validation of the net
prices: every input, negative values included, flows through the
arithmetic unchanged (`basePrice = flightPrice + hotelPrice +
transferPrice`, tax computed from it), and a `PackageCalculation` is
always produced; there is no InvalidInput rejection and no clamping. -/
theorem calculatePackagePrice_no_validation
    (flightPrice hotelPrice transferPrice : ℚ) (store : List MarginRule)
    (daysAdvance : Int) (category seasonType : Option String)
    (applyOpaqueMask : Bool) (currency : String) :
    let res := calculatePackagePrice flightPrice hotelPrice transferPrice store
      daysAdvance category seasonType applyOpaqueMask currency
    res.basePrice = flightPrice + hotelPrice + transferPrice ∧
      res.tax = (res.basePrice + res.margin) * taxRate ∧
      res.totalPrice = res.basePrice + res.margin + res.tax := by
  refine ⟨rfl, rfl, rfl⟩

/-- C5: the margin of the selected (first) rule is exactly the sum of a
percentage term counted only when `marginPercent > 0` and a fixed term
counted only when `marginFixed > 0`; for a non-negative base price the
margin is therefore never negative; and the spec's example rule
(10% plus 20 fixed) at basePrice 1000 gives margin 120. -/
theorem applyMarginRules_selected_rule_margin (basePrice : ℚ) (r : MarginRule)
    (rest : List MarginRule) :
    (applyMarginRules basePrice (r :: rest)).totalMargin =
        (if 0 < r.marginPercent then basePrice * r.marginPercent / 100 else 0) +
          (if 0 < r.marginFixed then r.marginFixed else 0) ∧
      (0 ≤ basePrice → 0 ≤ (applyMarginRules basePrice (r :: rest)).totalMargin) ∧
      (applyMarginRules 1000 [ruleC]).totalMargin = 120 := by
  refine ⟨?_, ?_, ?_⟩
  · show (if r.marginPercent > 0 then basePrice * (r.marginPercent / 100) else 0) +
        (if r.marginFixed > 0 then r.marginFixed else 0) = _
    split_ifs <;> ring
  · intro hb
    show 0 ≤ (if r.marginPercent > 0 then basePrice * (r.marginPercent / 100) else 0) +
        (if r.marginFixed > 0 then r.marginFixed else 0)
    split_ifs with h1 h2 h2 <;> nlinarith
  · show (if ruleC.marginPercent > 0 then (1000 : ℚ) * (ruleC.marginPercent / 100) else 0) +
        (if ruleC.marginFixed > 0 then ruleC.marginFixed else 0) = 120
    norm_num [ruleC]

/-- C5 witness: the non-negativity part of
`applyMarginRules_selected_rule_margin` at basePrice 1000 and rule C. -/
theorem applyMarginRules_selected_rule_margin_witness :
    0 ≤ (applyMarginRules 1000 (ruleC :: [])).totalMargin :=
  (applyMarginRules_selected_rule_margin 1000 ruleC []).2.1 (by norm_num)

/-- C2: whenever the candidate-rule list reaching the calculator is
non-empty, exactly one rule is applied — one of maximal priority among
the candidates — and `appliedRules` is exactly that singleton; and in
the spec's example (active rules A priority 1, 5% and B priority 10,
15%; basePrice 1000) the margin is 150 and only rule B is applied. -/
theorem calculatePackagePrice_single_top_rule
    (flightPrice hotelPrice transferPrice : ℚ) (store : List MarginRule)
    (daysAdvance : Int) (category seasonType : Option String)
    (applyOpaqueMask : Bool) (currency : String)
    (hne : getApplicableMarginRules store daysAdvance category seasonType ≠ []) :
    (∃ top,
      (calculatePackagePrice flightPrice hotelPrice transferPrice store
        daysAdvance category seasonType applyOpaqueMask currency).appliedRules = [top] ∧
      top ∈ getApplicableMarginRules store daysAdvance category seasonType ∧
      ∀ r ∈ getApplicableMarginRules store daysAdvance category seasonType,
        r.priority ≤ top.priority) ∧
      (calculatePackagePrice 1000 0 0 [ruleA, ruleB] 0 none none true "EUR").margin = 150 ∧
      (calculatePackagePrice 1000 0 0 [ruleA, ruleB] 0 none none true
        "EUR").appliedRules = [ruleB] := by
  have hf : store.filter (ruleMatchesWhere daysAdvance category seasonType) ≠ [] := by
    intro hnil
    exact hne (by simp [getApplicableMarginRules, hnil, sortByPriorityDesc])
  obtain ⟨top, rest, hsort, hmem, hmax⟩ :=
    sortByPriorityDesc_head_max _ hf
  refine ⟨⟨top, ?_, ?_, ?_⟩, ?_, ?_⟩
  · show (applyMarginRules _
      (getApplicableMarginRules store daysAdvance category seasonType)).appliedRules = [top]
    rw [getApplicableMarginRules, hsort]
    rfl
  · rw [getApplicableMarginRules, hsort]
    exact List.mem_cons_self top rest
  · intro r hr
    rw [getApplicableMarginRules] at hr
    exact hmax r (mem_sortByPriorityDesc.mp hr)
  · norm_num [calculatePackagePrice, getApplicableMarginRules, ruleMatchesWhere,
      sortByPriorityDesc, insertByPriorityDesc, applyMarginRules, ruleA, ruleB]
  · norm_num [calculatePackagePrice, getApplicableMarginRules, ruleMatchesWhere,
      sortByPriorityDesc, insertByPriorityDesc, applyMarginRules, ruleA, ruleB]

/-- C2 witness: the rule-selection theorem applied at the spec's
concrete store [ruleA, ruleB]. -/
theorem calculatePackagePrice_single_top_rule_witness :
    (calculatePackagePrice 1000 0 0 [ruleA, ruleB] 0 none none true "EUR").margin = 150 ∧
      (calculatePackagePrice 1000 0 0 [ruleA, ruleB] 0 none none true
        "EUR").appliedRules = [ruleB] :=
  (calculatePackagePrice_single_top_rule 1000 0 0 [ruleA, ruleB] 0 none none true
    "EUR" (by decide)).2

/-- Membership in a conditional singleton list forces equality. -/
lemma eq_of_mem_if_singleton {α : Type} {p : Prop} [Decidable p] {c x : α}
    (h : c ∈ if p then [x] else ([] : List α)) : c = x := by
  split at h
  · simpa using h
  · simp at h

/-- C7: every component of the breakdown satisfies
`totalPrice = netPrice + marginAmount + taxAmount`, and for non-negative
net prices the component fields sum to the aggregates: net prices to
`subtotal`, margins to `totalMargin`, taxes to `totalTax`, totals to
`grandTotal`. -/
theorem buildPriceBreakdown_components_sum
    (flightPrice hotelPrice transferPrice totalMargin taxAmount : ℚ)
    (currency : String) :
    (∀ c ∈ (buildPriceBreakdown flightPrice hotelPrice transferPrice totalMargin
        taxAmount currency).components,
      c.totalPrice = c.netPrice + c.marginAmount + c.taxAmount) ∧
      (0 ≤ flightPrice → 0 ≤ hotelPrice → 0 ≤ transferPrice →
        ((buildPriceBreakdown flightPrice hotelPrice transferPrice totalMargin
            taxAmount currency).components.map (fun c => c.netPrice)).sum =
          (buildPriceBreakdown flightPrice hotelPrice transferPrice totalMargin
            taxAmount currency).subtotal ∧
          ((buildPriceBreakdown flightPrice hotelPrice transferPrice totalMargin
            taxAmount currency).components.map (fun c => c.marginAmount)).sum =
          (buildPriceBreakdown flightPrice hotelPrice transferPrice totalMargin
            taxAmount currency).totalMargin ∧
          ((buildPriceBreakdown flightPrice hotelPrice transferPrice totalMargin
            taxAmount currency).components.map (fun c => c.taxAmount)).sum =
          (buildPriceBreakdown flightPrice hotelPrice transferPrice totalMargin
            taxAmount currency).totalTax ∧
          ((buildPriceBreakdown flightPrice hotelPrice transferPrice totalMargin
            taxAmount currency).components.map (fun c => c.totalPrice)).sum =
          (buildPriceBreakdown flightPrice hotelPrice transferPrice totalMargin
            taxAmount currency).grandTotal) := by
  constructor
  · intro c hc
    simp only [buildPriceBreakdown, List.mem_append, List.mem_cons,
      List.mem_singleton, List.not_mem_nil, or_false] at hc
    rcases hc with ((hc | hc) | hc) | hc | hc
    · rw [eq_of_mem_if_singleton hc]; show flightPrice = flightPrice + 0 + 0; ring
    · rw [eq_of_mem_if_singleton hc]; show hotelPrice = hotelPrice + 0 + 0; ring
    · rw [eq_of_mem_if_singleton hc]; show transferPrice = transferPrice + 0 + 0; ring
    · rw [hc]; show totalMargin = 0 + totalMargin + 0; ring
    · rw [hc]; show taxAmount = 0 + 0 + taxAmount; ring
  · intro hf hh ht
    simp only [buildPriceBreakdown]
    split_ifs with h1 h2 h3 <;>
      refine ⟨?_, ?_, ?_, ?_⟩ <;> simp <;> linarith

/-- C7 witness: the component-sum theorem at the concrete breakdown
(100, 0, 50, margin 30, tax 36). -/
theorem buildPriceBreakdown_components_sum_witness :
    ((buildPriceBreakdown 100 0 50 30 36 "EUR").components.map
        (fun c => c.netPrice)).sum = (buildPriceBreakdown 100 0 50 30 36 "EUR").subtotal ∧
      ((buildPriceBreakdown 100 0 50 30 36 "EUR").components.map
        (fun c => c.marginAmount)).sum = (buildPriceBreakdown 100 0 50 30 36 "EUR").totalMargin ∧
      ((buildPriceBreakdown 100 0 50 30 36 "EUR").components.map
        (fun c => c.taxAmount)).sum = (buildPriceBreakdown 100 0 50 30 36 "EUR").totalTax ∧
      ((buildPriceBreakdown 100 0 50 30 36 "EUR").components.map
        (fun c => c.totalPrice)).sum = (buildPriceBreakdown 100 0 50 30 36 "EUR").grandTotal :=
  (buildPriceBreakdown_components_sum 100 0 50 30 36 "EUR").2
    (by norm_num) (by norm_num) (by norm_num)

/-- C8: a FLIGHT, HOTEL or TRANSFER line appears in the breakdown exactly
when its net price is positive, while exactly one MARGIN line and one TAX
line always appear, whatever the amounts. -/
theorem buildPriceBreakdown_component_presence
    (flightPrice hotelPrice transferPrice totalMargin taxAmount : ℚ)
    (currency : String) :
    countComponents ComponentType.FLIGHT
        (buildPriceBreakdown flightPrice hotelPrice transferPrice totalMargin
          taxAmount currency).components = (if 0 < flightPrice then 1 else 0) ∧
      countComponents ComponentType.HOTEL
        (buildPriceBreakdown flightPrice hotelPrice transferPrice totalMargin
          taxAmount currency).components = (if 0 < hotelPrice then 1 else 0) ∧
      countComponents ComponentType.TRANSFER
        (buildPriceBreakdown flightPrice hotelPrice transferPrice totalMargin
          taxAmount currency).components = (if 0 < transferPrice then 1 else 0) ∧
      countComponents ComponentType.MARGIN
        (buildPriceBreakdown flightPrice hotelPrice transferPrice totalMargin
          taxAmount currency).components = 1 ∧
      countComponents ComponentType.TAX
        (buildPriceBreakdown flightPrice hotelPrice transferPrice totalMargin
          taxAmount currency).components = 1 := by
  simp only [buildPriceBreakdown, countComponents]
  split_ifs <;> exact ⟨rfl, rfl, rfl, rfl, rfl⟩

lemma getItineraryPriceBreakdown_buildPriceBreakdown
    (f h t m tax : ℚ) (cur : String) (hf : 0 ≤ f) (hh : 0 ≤ h) (ht : 0 ≤ t) :
    ∃ rb, getItineraryPriceBreakdown
        (buildPriceBreakdown f h t m tax cur).components = some rb ∧
      rb.subtotal = (buildPriceBreakdown f h t m tax cur).subtotal ∧
      rb.totalMargin = (buildPriceBreakdown f h t m tax cur).totalMargin ∧
      rb.totalTax = (buildPriceBreakdown f h t m tax cur).totalTax ∧
      rb.grandTotal = (buildPriceBreakdown f h t m tax cur).grandTotal := by
  simp only [buildPriceBreakdown]
  split_ifs
  · exact ⟨_, rfl, by show f + (h + (t + 0)) = f + h + t; linarith, rfl, rfl,
      by show f + (h + (t + 0)) + m + tax = f + h + t + m + tax; linarith⟩
  · exact ⟨_, rfl, by show f + (h + 0) = f + h + t; linarith, rfl, rfl,
      by show f + (h + 0) + m + tax = f + h + t + m + tax; linarith⟩
  · exact ⟨_, rfl, by show f + (t + 0) = f + h + t; linarith, rfl, rfl,
      by show f + (t + 0) + m + tax = f + h + t + m + tax; linarith⟩
  · exact ⟨_, rfl, by show f + 0 = f + h + t; linarith, rfl, rfl,
      by show f + 0 + m + tax = f + h + t + m + tax; linarith⟩
  · exact ⟨_, rfl, by show h + (t + 0) = f + h + t; linarith, rfl, rfl,
      by show h + (t + 0) + m + tax = f + h + t + m + tax; linarith⟩
  · exact ⟨_, rfl, by show h + 0 = f + h + t; linarith, rfl, rfl,
      by show h + 0 + m + tax = f + h + t + m + tax; linarith⟩
  · exact ⟨_, rfl, by show t + 0 = f + h + t; linarith, rfl, rfl,
      by show t + 0 + m + tax = f + h + t + m + tax; linarith⟩
  · exact ⟨_, rfl, by show 0 = f + h + t; linarith, rfl, rfl,
      by show 0 + m + tax = f + h + t + m + tax; linarith⟩

/-- C9: re-deriving a breakdown from the persisted component rows of a
computed calculation (the reconstruction of `getItineraryPriceBreakdown`)
yields exactly the same subtotal, totalMargin, totalTax and grandTotal
as the freshly computed breakdown, for non-negative net prices. -/
theorem getItineraryPriceBreakdown_roundtrip
    (flightPrice hotelPrice transferPrice : ℚ) (store : List MarginRule)
    (daysAdvance : Int) (category seasonType : Option String)
    (applyOpaqueMask : Bool) (currency : String)
    (hf : 0 ≤ flightPrice) (hh : 0 ≤ hotelPrice) (ht : 0 ≤ transferPrice) :
    ∃ rb, getItineraryPriceBreakdown
        (calculatePackagePrice flightPrice hotelPrice transferPrice store
          daysAdvance category seasonType applyOpaqueMask
          currency).breakdown.components = some rb ∧
      rb.subtotal = (calculatePackagePrice flightPrice hotelPrice transferPrice
        store daysAdvance category seasonType applyOpaqueMask
        currency).breakdown.subtotal ∧
      rb.totalMargin = (calculatePackagePrice flightPrice hotelPrice transferPrice
        store daysAdvance category seasonType applyOpaqueMask
        currency).breakdown.totalMargin ∧
      rb.totalTax = (calculatePackagePrice flightPrice hotelPrice transferPrice
        store daysAdvance category seasonType applyOpaqueMask
        currency).breakdown.totalTax ∧
      rb.grandTotal = (calculatePackagePrice flightPrice hotelPrice transferPrice
        store daysAdvance category seasonType applyOpaqueMask
        currency).breakdown.grandTotal :=
  getItineraryPriceBreakdown_buildPriceBreakdown flightPrice hotelPrice
    transferPrice _ _ currency hf hh ht

/-- C9 witness: the round-trip theorem at the concrete input
(100, 0, 50) with an empty rule store. -/
theorem getItineraryPriceBreakdown_roundtrip_witness :
    ∃ rb, getItineraryPriceBreakdown
        (calculatePackagePrice 100 0 50 [] 0 none none true
          "EUR").breakdown.components = some rb ∧
      rb.subtotal = (calculatePackagePrice 100 0 50 [] 0 none none true
        "EUR").breakdown.subtotal ∧
      rb.totalMargin = (calculatePackagePrice 100 0 50 [] 0 none none true
        "EUR").breakdown.totalMargin ∧
      rb.totalTax = (calculatePackagePrice 100 0 50 [] 0 none none true
        "EUR").breakdown.totalTax ∧
      rb.grandTotal = (calculatePackagePrice 100 0 50 [] 0 none none true
        "EUR").breakdown.grandTotal :=
  getItineraryPriceBreakdown_roundtrip 100 0 50 [] 0 none none true "EUR"
    (by norm_num) (by norm_num) (by norm_num)
